import Mathlib

/-!
Shallow embedding of `main.py`, a FastAPI admin user-management service.

State is modelled explicitly:
* the external Postgres `users` table as a `List User` (rows in table order;
  the `id` column is the primary key, so real tables have pairwise distinct ids);
* the SQLite `settings` table as an association list keyed by its primary key;
* the SQLite `admin_sessions` table as the list of issued tokens (the `id` and
  `created_at` columns play no role in any query of the source).

A SQL `UPDATE ... WHERE c` is the pointwise map that rewrites exactly the rows
satisfying `c`; a `SELECT ... WHERE c LIMIT 1` is `List.find?`.  A raised
`HTTPException(code, msg)` is `Except.error ⟨code, msg⟩`.  Python string
slicing (`auth_header[7:]`) and `str.startswith` operate on the character
sequence, so they are modelled on `String.data : List Char`.  `int(s)` is
modelled by `String.pyInt?` below (an optional sign followed by decimal
digits; `none` is a raised `ValueError`), and a parse failure inside the
daily-reset job is caught by its top-level `try`.  Handlers return the (possibly updated) server state
together with either their JSON response or the raised error; an error leaves
the state unchanged, exactly as raising before the mutation does in the source.
-/

/-- A raised FastAPI `HTTPException`: status code and detail message. -/
structure HTTPError where
  code : Nat
  message : String
deriving DecidableEq, Repr

/-- A row of the external `users` table: `id, username, display_name, "group",
quota, used_quota, deleted_at` (nullable soft-delete timestamp). -/
structure User where
  id : Int
  username : String
  display_name : String
  group : String
  quota : Int
  used_quota : Int
  deleted_at : Option String
deriving DecidableEq, Repr

/-- The `users` table, in row order. -/
abbrev UserDB := List User

/-- The SQLite `settings` table: `key TEXT PRIMARY KEY, value TEXT`. -/
abbrev Settings := List (String × String)

/-- Value of a decimal digit character, `none` for any other character. -/
def digitVal? (c : Char) : Option Nat :=
  if 48 ≤ c.toNat ∧ c.toNat ≤ 57 then some (c.toNat - 48) else none

/-- Reads a non-empty all-digit character list as a natural number. -/
def digitsAux : List Char → Nat → Option Nat
  | [], acc => some acc
  | c :: cs, acc =>
    match digitVal? c with
    | some d => digitsAux cs (10 * acc + d)
    | none => none

/-- `digitsToNat? cs` is the value of `cs` as a decimal numeral, `none` when
`cs` is empty or holds a non-digit. -/
def digitsToNat? (cs : List Char) : Option Nat :=
  match cs with
  | [] => none
  | _ => digitsAux cs 0

/-- Python `int(s)` on the character data of `s`: an optional `-`/`+` sign
followed by at least one decimal digit; `none` stands for the raised
`ValueError` on any other input.  (Python additionally tolerates surrounding
whitespace and underscore separators; no claim depends on those forms and the
values the service itself stores are canonical `str(int)` strings.) -/
def String.pyInt? (s : String) : Option Int :=
  match s.data with
  | '-' :: rest => (digitsToNat? rest).map (fun n => -(n : Int))
  | '+' :: rest => (digitsToNat? rest).map (fun n => (n : Int))
  | cs => (digitsToNat? cs).map (fun n => (n : Int))

/-- `get_setting(key, default)`: `SELECT value FROM settings WHERE key = ?`,
returning the caller-supplied default when no row matches. -/
def get_setting (s : Settings) (key dflt : String) : String :=
  match s.find? (fun kv => kv.1 == key) with
  | some kv => kv.2
  | none => dflt

/-- `set_setting(key, value)`: `INSERT OR REPLACE INTO settings`, an upsert on
the primary key. -/
def set_setting (s : Settings) (key value : String) : Settings :=
  (key, value) :: s.filter (fun kv => kv.1 != key)

/-- Effect of `UPDATE users SET quota = %s, used_quota = 0 WHERE id = %s AND
deleted_at IS NULL` on one row. -/
def applyReset (user_id new_quota : Int) (u : User) : User :=
  if u.id == user_id && u.deleted_at.isNone then
    { u with quota := new_quota, used_quota := 0 }
  else u

/-- `reset_user_quota(user_id, new_quota)`: the quota assignment and the
`used_quota = 0` zeroing are a single `UPDATE` statement. -/
def reset_user_quota (db : UserDB) (user_id new_quota : Int) : UserDB :=
  db.map (applyReset user_id new_quota)

/-- The six columns selected by `get_user_by_id`. -/
structure UserInfo where
  id : Int
  username : String
  display_name : String
  group : String
  quota : Int
  used_quota : Int
deriving DecidableEq, Repr

/-- Projection of a `users` row onto the selected columns. -/
def userInfo (u : User) : UserInfo :=
  ⟨u.id, u.username, u.display_name, u.group, u.quota, u.used_quota⟩

/-- `get_user_by_id(user_id)`: `SELECT ... WHERE id = %s AND deleted_at IS NULL
LIMIT 1`; raises `HTTPException(404, ...)` when no row matches. -/
def get_user_by_id (db : UserDB) (user_id : Int) : Except HTTPError UserInfo :=
  match db.find? (fun u => u.id == user_id && u.deleted_at.isNone) with
  | some u => .ok (userInfo u)
  | none => .error ⟨404, "User not found or has been deleted"⟩

/-- Effect of `UPDATE users SET "group" = %s WHERE id = %s AND deleted_at IS
NULL` on one row. -/
def applyGroup (user_id : Int) (group : String) (u : User) : User :=
  if u.id == user_id && u.deleted_at.isNone then { u with group := group } else u

/-- `update_user_group(user_id, group)`. -/
def update_user_group (db : UserDB) (user_id : Int) (group : String) : UserDB :=
  db.map (applyGroup user_id group)

/-- Effect of `UPDATE users SET quota = quota + %s WHERE id = %s AND deleted_at
IS NULL` on one row. -/
def applyIncrement (user_id delta : Int) (u : User) : User :=
  if u.id == user_id && u.deleted_at.isNone then { u with quota := u.quota + delta } else u

/-- `increment_user_quota(user_id, delta)`; `delta` may be negative and no
floor is enforced. -/
def increment_user_quota (db : UserDB) (user_id delta : Int) : UserDB :=
  db.map (applyIncrement user_id delta)

/-- `SELECT 1 FROM admin_sessions WHERE token=?` has a row exactly when the
token was stored. -/
def isValidToken (sessions : List String) (token : String) : Bool :=
  sessions.contains token

/-- The error raised by `require_admin_auth` on both failure paths. -/
def adminRequired : HTTPError :=
  ⟨403, "Admin access required"⟩

/-- `require_admin_auth(request)`: reads the `Authorization` header (absent
header = `""`), demands the `"Bearer "` prefix, and looks the remaining
characters up in `admin_sessions`.  `startswith`/`[7:]` act on the character
sequence of the header. -/
def require_admin_auth (sessions : List String) (auth_header : String) :
    Except HTTPError Unit :=
  if auth_header.data.take 7 = "Bearer ".data then
    if isValidToken sessions ⟨auth_header.data.drop 7⟩ then .ok ()
    else .error adminRequired
  else .error adminRequired

/-- The whole mutable state of the process: issued admin tokens, the settings
table and the external users table. -/
structure ServerState where
  sessions : List String
  settings : Settings
  users : UserDB
deriving DecidableEq, Repr

/-- The `{"ok": ..., "message": ...}` response body. -/
structure ApiMessage where
  ok : Bool
  message : String
deriving DecidableEq, Repr

/-- `POST /api/admin/login`: compares the payload password with
`ADMIN_PASSWORD` and on success stores a fresh random token (the token is a
parameter here, standing for `os.urandom(16).hex()`). -/
def admin_login (st : ServerState) (admin_password password token : String) :
    ServerState × Except HTTPError String :=
  if password != admin_password then (st, .error ⟨401, "Invalid admin password"⟩)
  else ({ st with sessions := st.sessions ++ [token] }, .ok token)

/-- The candidate set of the reset job: `SELECT id, "group" FROM users WHERE
"group" IN ('vip', 'default') AND deleted_at IS NULL` (here the whole rows, of
which the job uses `id` and `"group"`). -/
def usersToReset (db : UserDB) : List User :=
  db.filter (fun u => (u.group == "vip" || u.group == "default") && u.deleted_at.isNone)

/-- `quota_to_set = vip_quota if user_group == 'vip' else default_quota`. -/
def quotaToSet (vip_quota default_quota : Int) (group : String) : Int :=
  if group == "vip" then vip_quota else default_quota

/-- `daily_reset`: reads both reset quotas from settings (with the hardcoded
fallbacks), snapshots the candidate rows, then runs `reset_user_quota` for each
in order.  Everything is inside one `try`: an exception (here: an unparseable
setting, before any row is touched) is caught, logged, and the run ends. -/
def daily_reset (settings : Settings) (db : UserDB) : UserDB :=
  match (get_setting settings "daily_reset_quota_vip" "1000000").pyInt?,
        (get_setting settings "daily_reset_quota_default" "50000").pyInt? with
  | some vip_quota, some default_quota =>
    (usersToReset db).foldl
      (fun acc u => reset_user_quota acc u.id (quotaToSet vip_quota default_quota u.group)) db
  | _, _ => db

/-- `GET /api/admin/settings/daily_reset`: auth, then return both quotas as
integers (an unparseable stored value would raise out of the handler, a
generic 500). -/
def get_daily_reset_settings (st : ServerState) (auth_header : String) :
    ServerState × Except HTTPError (Int × Int) :=
  match require_admin_auth st.sessions auth_header with
  | .error e => (st, .error e)
  | .ok _ =>
    match (get_setting st.settings "daily_reset_quota_vip" "1000000").pyInt?,
          (get_setting st.settings "daily_reset_quota_default" "50000").pyInt? with
    | some v, some d => (st, .ok (v, d))
    | _, _ => (st, .error ⟨500, "Internal Server Error"⟩)

/-- `POST /api/admin/settings/daily_reset`: auth, reject a negative quota with
a 400 before writing, otherwise upsert both settings. -/
def set_daily_reset_settings (st : ServerState) (auth_header : String)
    (vip_quota default_quota : Int) : ServerState × Except HTTPError ApiMessage :=
  match require_admin_auth st.sessions auth_header with
  | .error e => (st, .error e)
  | .ok _ =>
    if vip_quota < 0 || default_quota < 0 then
      (st, .error ⟨400, "Quota cannot be negative"⟩)
    else
      let s1 := set_setting st.settings "daily_reset_quota_vip" (toString vip_quota)
      let s2 := set_setting s1 "daily_reset_quota_default" (toString default_quota)
      ({ st with settings := s2 }, .ok ⟨true, "Settings saved successfully."⟩)

/-- `POST /api/admin/actions/trigger_daily_reset`: auth, then `await
daily_reset(...)` runs to completion before the response is built. -/
def trigger_daily_reset_now (st : ServerState) (auth_header : String) :
    ServerState × Except HTTPError ApiMessage :=
  match require_admin_auth st.sessions auth_header with
  | .error e => (st, .error e)
  | .ok _ =>
    ({ st with users := daily_reset st.settings st.users },
     .ok ⟨true, "Immediate reset task has been triggered successfully."⟩)

/-- `GET /api/admin/user/{user_id}`: auth, then `get_user_by_id`. -/
def get_user_info (st : ServerState) (auth_header : String) (user_id : Int) :
    ServerState × Except HTTPError UserInfo :=
  match require_admin_auth st.sessions auth_header with
  | .error e => (st, .error e)
  | .ok _ => (st, get_user_by_id st.users user_id)

/-- `POST /api/admin/user/group`: auth, mutate, respond `{"ok": True}`. -/
def update_user_group_api (st : ServerState) (auth_header : String)
    (user_id : Int) (group : String) : ServerState × Except HTTPError Bool :=
  match require_admin_auth st.sessions auth_header with
  | .error e => (st, .error e)
  | .ok _ => ({ st with users := update_user_group st.users user_id group }, .ok true)

/-- `POST /api/admin/user/quota/increment`: auth, mutate, respond `{"ok": True}`. -/
def increment_quota_api (st : ServerState) (auth_header : String)
    (user_id delta : Int) : ServerState × Except HTTPError Bool :=
  match require_admin_auth st.sessions auth_header with
  | .error e => (st, .error e)
  | .ok _ => ({ st with users := increment_user_quota st.users user_id delta }, .ok true)

/-- `POST /api/admin/user/quota/reset`: auth, mutate, respond `{"ok": True}`. -/
def reset_quota_api (st : ServerState) (auth_header : String)
    (user_id quota : Int) : ServerState × Except HTTPError Bool :=
  match require_admin_auth st.sessions auth_header with
  | .error e => (st, .error e)
  | .ok _ => ({ st with users := reset_user_quota st.users user_id quota }, .ok true)

/-- What the spec says one run of the reset job does to a single row, given the
VIP reset quota `V` and the default reset quota `D`: a non-deleted `"vip"` row
gets quota `V` and `used_quota` 0, a non-deleted `"default"` row gets quota `D`
and `used_quota` 0, every other row is untouched. -/
def specResetUser (V D : Int) (u : User) : User :=
  if u.deleted_at = none then
    if u.group = "vip" then { u with quota := V, used_quota := 0 }
    else if u.group = "default" then { u with quota := D, used_quota := 0 }
    else u
  else u

/-! Helper lemmas about the row-level update functions. -/

theorem applyReset_id (user_id q : Int) (u : User) : (applyReset user_id q u).id = u.id := by
  unfold applyReset; split <;> rfl

theorem applyReset_group (user_id q : Int) (u : User) :
    (applyReset user_id q u).group = u.group := by
  unfold applyReset; split <;> rfl

theorem applyReset_deleted_at (user_id q : Int) (u : User) :
    (applyReset user_id q u).deleted_at = u.deleted_at := by
  unfold applyReset; split <;> rfl

theorem applyReset_of_ne (user_id q : Int) (u : User)
    (h : u.id ≠ user_id ∨ u.deleted_at ≠ none) : applyReset user_id q u = u := by
  rcases h with h | h <;> simp [applyReset, h, Option.isNone_iff_eq_none]

theorem applyReset_fires (user_id q : Int) (u : User)
    (hid : u.id = user_id) (hdel : u.deleted_at = none) :
    applyReset user_id q u = { u with quota := q, used_quota := 0 } := by
  simp [applyReset, hid, hdel]

theorem foldl_reset_eq_map (v d : Int) (ts : List User) (db : UserDB) :
    ts.foldl (fun acc u => reset_user_quota acc u.id (quotaToSet v d u.group)) db
      = db.map (fun x => ts.foldl (fun y u => applyReset u.id (quotaToSet v d u.group) y) x) := by
  induction ts generalizing db with
  | nil => simp
  | cons t ts ih =>
    rw [List.foldl_cons, ih, reset_user_quota, List.map_map]
    rfl

theorem foldl_applyReset_untouched (v d : Int) (ts : List User) (x : User)
    (h : ∀ u ∈ ts, x.id ≠ u.id ∨ x.deleted_at ≠ none) :
    ts.foldl (fun y u => applyReset u.id (quotaToSet v d u.group) y) x = x := by
  induction ts with
  | nil => rfl
  | cons t ts ih =>
    rw [List.foldl_cons, applyReset_of_ne _ _ _ (h t (List.mem_cons_self t ts))]
    exact ih (fun u hu => h u (List.mem_cons_of_mem t hu))

theorem foldl_applyReset_fixed (v d : Int) (ts : List User) (x : User)
    (hdel : x.deleted_at = none) (h : ∀ u ∈ ts, u.id = x.id → u = x) :
    ts.foldl (fun y u => applyReset u.id (quotaToSet v d u.group) y)
      { x with quota := quotaToSet v d x.group, used_quota := 0 }
      = { x with quota := quotaToSet v d x.group, used_quota := 0 } := by
  induction ts with
  | nil => rfl
  | cons t ts ih =>
    rw [List.foldl_cons]
    rcases eq_or_ne t.id x.id with he | hne
    · have ht : t = x := h t (List.mem_cons_self t ts) he
      subst ht
      have hfix := applyReset_fires t.id (quotaToSet v d t.group)
        { t with quota := quotaToSet v d t.group, used_quota := 0 } rfl hdel
      rw [hfix]
      exact ih (fun u hu => h u (List.mem_cons_of_mem t hu))
    · rw [applyReset_of_ne _ _ _ (Or.inl (fun hx => hne (by rw [hx])))]
      exact ih (fun u hu => h u (List.mem_cons_of_mem t hu))

theorem foldl_applyReset_main (v d : Int) (ts : List User) (x : User)
    (h : ∀ u ∈ ts, u.id = x.id → u = x) :
    ts.foldl (fun y u => applyReset u.id (quotaToSet v d u.group) y) x
      = if x ∈ ts ∧ x.deleted_at = none
        then { x with quota := quotaToSet v d x.group, used_quota := 0 } else x := by
  by_cases hdel : x.deleted_at = none
  · induction ts with
    | nil => simp
    | cons t ts ih =>
      rw [List.foldl_cons]
      rcases eq_or_ne t.id x.id with he | hne
      · have ht : t = x := h t (List.mem_cons_self t ts) he
        subst ht
        rw [applyReset_fires _ _ _ rfl hdel]
        rw [foldl_applyReset_fixed v d ts t hdel (fun u hu => h u (List.mem_cons_of_mem t hu))]
        rw [if_pos ⟨List.mem_cons_self t ts, hdel⟩]
      · have hxt : ¬ x = t := fun hx => hne (by rw [hx])
        rw [applyReset_of_ne _ _ _ (Or.inl (fun hx => hne (by rw [hx])))]
        rw [ih (fun u hu => h u (List.mem_cons_of_mem t hu))]
        simp [List.mem_cons, hxt]
  · rw [foldl_applyReset_untouched v d ts x (fun u _ => Or.inr hdel)]
    rw [if_neg (fun hc => hdel hc.2)]

theorem mem_usersToReset (db : UserDB) (x : User) :
    x ∈ usersToReset db
      ↔ x ∈ db ∧ (x.group = "vip" ∨ x.group = "default") ∧ x.deleted_at = none := by
  simp [usersToReset, List.mem_filter, Option.isNone_iff_eq_none, and_assoc]

theorem specResetUser_id (V D : Int) (u : User) : (specResetUser V D u).id = u.id := by
  unfold specResetUser
  repeat' split
  all_goals rfl

theorem specResetUser_idem (V D : Int) (u : User) :
    specResetUser V D (specResetUser V D u) = specResetUser V D u := by
  by_cases hdel : u.deleted_at = none <;>
    by_cases hv : u.group = "vip" <;>
      by_cases hd : u.group = "default" <;>
        simp [specResetUser, hdel, hv, hd]

theorem daily_reset_eq_map (settings : Settings) (db : UserDB) (V D : Int)
    (hV : (get_setting settings "daily_reset_quota_vip" "1000000").pyInt? = some V)
    (hD : (get_setting settings "daily_reset_quota_default" "50000").pyInt? = some D)
    (hnodup : (db.map User.id).Nodup) :
    daily_reset settings db = db.map (specResetUser V D) := by
  simp only [daily_reset, hV, hD]
  rw [foldl_reset_eq_map]
  apply List.map_congr_left
  intro x hx
  rw [foldl_applyReset_main V D (usersToReset db) x
    (fun u hu hid =>
      List.inj_on_of_nodup_map hnodup
        (List.mem_filter.mp hu).1 hx hid)]
  by_cases hdel : x.deleted_at = none
  · by_cases hv : x.group = "vip"
    · rw [if_pos ⟨(mem_usersToReset db x).mpr ⟨hx, Or.inl hv, hdel⟩, hdel⟩]
      simp [specResetUser, quotaToSet, hv, hdel]
    · by_cases hd : x.group = "default"
      · rw [if_pos ⟨(mem_usersToReset db x).mpr ⟨hx, Or.inr hd, hdel⟩, hdel⟩]
        simp [specResetUser, quotaToSet, hv, hd, hdel]
      · rw [if_neg (fun hc => by
          rcases (mem_usersToReset db x).mp hc.1 with ⟨-, hg, -⟩
          rcases hg with hg | hg
          · exact hv hg
          · exact hd hg)]
        simp [specResetUser, hv, hd, hdel]
  · rw [if_neg (fun hc => hdel hc.2)]
    simp [specResetUser, hdel]

theorem daily_reset_parse_none (settings : Settings) (db : UserDB)
    (h : (get_setting settings "daily_reset_quota_vip" "1000000").pyInt? = none ∨
         (get_setting settings "daily_reset_quota_default" "50000").pyInt? = none) :
    daily_reset settings db = db := by
  rcases h with h | h
  · simp [daily_reset, h]
  · rcases hv : (get_setting settings "daily_reset_quota_vip" "1000000").pyInt? with _ | v
    · simp [daily_reset, hv]
    · simp [daily_reset, hv, h]

/-- C1: with the VIP reset quota `V` and the default reset quota `D` read from
settings (each falling back to its hardcoded default when unset), one run of
the daily reset job sends every non-deleted `"vip"` row to quota `V` with
`used_quota` 0, every non-deleted `"default"` row to quota `D` with
`used_quota` 0, and leaves every other row (other groups, or soft-deleted)
completely unchanged — `specResetUser` is exactly that per-row description.
The users table has pairwise distinct ids (its primary key). -/
theorem daily_reset_matches_spec (settings : Settings) (db : UserDB) (V D : Int)
    (hV : (get_setting settings "daily_reset_quota_vip" "1000000").pyInt? = some V)
    (hD : (get_setting settings "daily_reset_quota_default" "50000").pyInt? = some D)
    (hnodup : (db.map User.id).Nodup) :
    daily_reset settings db = db.map (specResetUser V D) :=
  daily_reset_eq_map settings db V D hV hD hnodup

/-- Witness for C1, the spec's own example: VIP quota 100000, default quota
20000, users A(vip), B(default), C(enterprise); A and B are reset and zeroed,
C keeps quota and `used_quota`. -/
theorem daily_reset_matches_spec_witness :
    ((get_setting [("daily_reset_quota_vip", "100000"), ("daily_reset_quota_default", "20000")]
        "daily_reset_quota_vip" "1000000").pyInt? = some 100000) ∧
    ((get_setting [("daily_reset_quota_vip", "100000"), ("daily_reset_quota_default", "20000")]
        "daily_reset_quota_default" "50000").pyInt? = some 20000) ∧
    (([⟨1, "a", "A", "vip", 0, 7, none⟩, ⟨2, "b", "B", "default", 0, 8, none⟩,
       ⟨3, "c", "C", "enterprise", 0, 9, none⟩] : UserDB).map User.id).Nodup ∧
    daily_reset [("daily_reset_quota_vip", "100000"), ("daily_reset_quota_default", "20000")]
        [⟨1, "a", "A", "vip", 0, 7, none⟩, ⟨2, "b", "B", "default", 0, 8, none⟩,
         ⟨3, "c", "C", "enterprise", 0, 9, none⟩]
      = [⟨1, "a", "A", "vip", 100000, 0, none⟩, ⟨2, "b", "B", "default", 20000, 0, none⟩,
         ⟨3, "c", "C", "enterprise", 0, 9, none⟩] := by
  refine ⟨by decide, by decide, by decide, ?_⟩
  rw [daily_reset_matches_spec _ _ 100000 20000 (by decide) (by decide) (by decide)]
  decide

/-- C9: with unchanged settings and no interleaved mutations, running the
reset job twice produces exactly the users table a single run produces (over a
table with pairwise distinct ids). -/
theorem daily_reset_idempotent (settings : Settings) (db : UserDB)
    (hnodup : (db.map User.id).Nodup) :
    daily_reset settings (daily_reset settings db) = daily_reset settings db := by
  rcases hv : (get_setting settings "daily_reset_quota_vip" "1000000").pyInt? with _ | V
  · rw [daily_reset_parse_none settings db (Or.inl hv)]
    exact daily_reset_parse_none settings db (Or.inl hv)
  · rcases hd : (get_setting settings "daily_reset_quota_default" "50000").pyInt? with _ | D
    · rw [daily_reset_parse_none settings db (Or.inr hd)]
      exact daily_reset_parse_none settings db (Or.inr hd)
    · have h1 := daily_reset_eq_map settings db V D hv hd hnodup
      have hnodup2 : ((db.map (specResetUser V D)).map User.id).Nodup := by
        rw [List.map_map]
        have hc : db.map (User.id ∘ specResetUser V D) = db.map User.id :=
          List.map_congr_left (fun a _ => specResetUser_id V D a)
        rw [hc]
        exact hnodup
      have h2 := daily_reset_eq_map settings (db.map (specResetUser V D)) V D hv hd hnodup2
      rw [h1, h2, List.map_map]
      exact List.map_congr_left (fun a _ => specResetUser_idem V D a)

/-- Witness for C9 on a concrete three-user table. -/
theorem daily_reset_idempotent_witness :
    (([⟨1, "a", "A", "vip", 3, 7, none⟩, ⟨2, "b", "B", "default", 4, 8, none⟩,
       ⟨3, "c", "C", "enterprise", 5, 9, none⟩] : UserDB).map User.id).Nodup ∧
    daily_reset []
        (daily_reset [] [⟨1, "a", "A", "vip", 3, 7, none⟩, ⟨2, "b", "B", "default", 4, 8, none⟩,
          ⟨3, "c", "C", "enterprise", 5, 9, none⟩])
      = daily_reset [] [⟨1, "a", "A", "vip", 3, 7, none⟩, ⟨2, "b", "B", "default", 4, 8, none⟩,
          ⟨3, "c", "C", "enterprise", 5, 9, none⟩] :=
  ⟨by decide, daily_reset_idempotent _ _ (by decide)⟩

theorem find?_user_eq_none (db : UserDB) (uid : Int)
    (h : ∀ u ∈ db, u.id = uid → u.deleted_at ≠ none) :
    db.find? (fun u => u.id == uid && u.deleted_at.isNone) = none := by
  rw [List.find?_eq_none]
  intro u hu
  simp only [Bool.and_eq_true, beq_iff_eq, Option.isNone_iff_eq_none, not_and]
  exact h u hu

theorem map_eq_self_of (db : UserDB) (f : User → User) (hf : ∀ u ∈ db, f u = u) :
    db.map f = db :=
  (List.map_congr_left hf).trans (List.map_id db)

theorem applyGroup_of_ne (user_id : Int) (g : String) (u : User)
    (h : u.id ≠ user_id ∨ u.deleted_at ≠ none) : applyGroup user_id g u = u := by
  rcases h with h | h <;> simp [applyGroup, h, Option.isNone_iff_eq_none]

theorem applyIncrement_of_ne (user_id d : Int) (u : User)
    (h : u.id ≠ user_id ∨ u.deleted_at ≠ none) : applyIncrement user_id d u = u := by
  rcases h with h | h <;> simp [applyIncrement, h, Option.isNone_iff_eq_none]

theorem rows_of_missing (db : UserDB) (uid : Int)
    (h : ∀ u ∈ db, u.id = uid → u.deleted_at ≠ none) :
    ∀ u ∈ db, u.id ≠ uid ∨ u.deleted_at ≠ none := fun u hu =>
  if hid : u.id = uid then Or.inr (h u hu hid) else Or.inl hid

theorem update_user_group_untouched (db : UserDB) (uid : Int) (g : String)
    (h : ∀ u ∈ db, u.id = uid → u.deleted_at ≠ none) :
    update_user_group db uid g = db :=
  map_eq_self_of db _ (fun u hu => applyGroup_of_ne uid g u (rows_of_missing db uid h u hu))

theorem increment_user_quota_untouched (db : UserDB) (uid d : Int)
    (h : ∀ u ∈ db, u.id = uid → u.deleted_at ≠ none) :
    increment_user_quota db uid d = db :=
  map_eq_self_of db _ (fun u hu => applyIncrement_of_ne uid d u (rows_of_missing db uid h u hu))

theorem reset_user_quota_untouched (db : UserDB) (uid q : Int)
    (h : ∀ u ∈ db, u.id = uid → u.deleted_at ≠ none) :
    reset_user_quota db uid q = db :=
  map_eq_self_of db _ (fun u hu => applyReset_of_ne uid q u (rows_of_missing db uid h u hu))

/-- C3: for a user id all of whose rows are soft-deleted, `get_user_by_id`
raises the 404, the three mutation primitives leave the table unchanged, and
the reset job's candidate set contains no row with that id. -/
theorem soft_deleted_user_invisible (db : UserDB) (uid : Int) (g : String) (d q : Int)
    (h : ∀ u ∈ db, u.id = uid → u.deleted_at ≠ none) :
    get_user_by_id db uid = .error ⟨404, "User not found or has been deleted"⟩ ∧
    update_user_group db uid g = db ∧
    increment_user_quota db uid d = db ∧
    reset_user_quota db uid q = db ∧
    ∀ u ∈ usersToReset db, u.id ≠ uid := by
  refine ⟨?_, update_user_group_untouched db uid g h,
    increment_user_quota_untouched db uid d h,
    reset_user_quota_untouched db uid q h, ?_⟩
  · unfold get_user_by_id
    rw [find?_user_eq_none db uid h]
  · intro u hu hid
    rcases (mem_usersToReset db u).mp hu with ⟨hmem, -, hdel⟩
    exact h u hmem hid hdel

/-- Witness for C3: user 1 is soft-deleted, user 2 is live. -/
theorem soft_deleted_user_invisible_witness :
    (∀ u ∈ ([⟨1, "a", "A", "vip", 5, 6, some "2024-01-01"⟩,
       ⟨2, "b", "B", "default", 7, 8, none⟩] : UserDB), u.id = 1 → u.deleted_at ≠ none) ∧
    get_user_by_id [⟨1, "a", "A", "vip", 5, 6, some "2024-01-01"⟩,
        ⟨2, "b", "B", "default", 7, 8, none⟩] 1
      = .error ⟨404, "User not found or has been deleted"⟩ ∧
    update_user_group [⟨1, "a", "A", "vip", 5, 6, some "2024-01-01"⟩,
        ⟨2, "b", "B", "default", 7, 8, none⟩] 1 "enterprise"
      = [⟨1, "a", "A", "vip", 5, 6, some "2024-01-01"⟩, ⟨2, "b", "B", "default", 7, 8, none⟩] ∧
    increment_user_quota [⟨1, "a", "A", "vip", 5, 6, some "2024-01-01"⟩,
        ⟨2, "b", "B", "default", 7, 8, none⟩] 1 3
      = [⟨1, "a", "A", "vip", 5, 6, some "2024-01-01"⟩, ⟨2, "b", "B", "default", 7, 8, none⟩] ∧
    reset_user_quota [⟨1, "a", "A", "vip", 5, 6, some "2024-01-01"⟩,
        ⟨2, "b", "B", "default", 7, 8, none⟩] 1 9
      = [⟨1, "a", "A", "vip", 5, 6, some "2024-01-01"⟩, ⟨2, "b", "B", "default", 7, 8, none⟩] ∧
    ∀ u ∈ usersToReset [⟨1, "a", "A", "vip", 5, 6, some "2024-01-01"⟩,
        ⟨2, "b", "B", "default", 7, 8, none⟩], u.id ≠ 1 :=
  ⟨by decide, soft_deleted_user_invisible _ 1 "enterprise" 3 9 (by decide)⟩

theorem applyIncrement_id (user_id d : Int) (u : User) :
    (applyIncrement user_id d u).id = u.id := by
  unfold applyIncrement; split <;> rfl

theorem applyIncrement_deleted_at (user_id d : Int) (u : User) :
    (applyIncrement user_id d u).deleted_at = u.deleted_at := by
  unfold applyIncrement; split <;> rfl

theorem applyIncrement_fires (user_id d : Int) (u : User)
    (hid : u.id = user_id) (hdel : u.deleted_at = none) :
    applyIncrement user_id d u = { u with quota := u.quota + d } := by
  simp [applyIncrement, hid, hdel]

theorem find?_map_applyReset (db : UserDB) (uid q : Int) :
    (reset_user_quota db uid q).find? (fun u => u.id == uid && u.deleted_at.isNone)
      = (db.find? (fun u => u.id == uid && u.deleted_at.isNone)).map (applyReset uid q) := by
  unfold reset_user_quota
  have hp : ((fun u => u.id == uid && u.deleted_at.isNone) ∘ applyReset uid q)
      = (fun u : User => u.id == uid && u.deleted_at.isNone) := by
    funext u
    simp [Function.comp, applyReset_id, applyReset_deleted_at]
  rw [List.find?_map, hp]

theorem find?_map_applyIncrement (db : UserDB) (uid d : Int) :
    (increment_user_quota db uid d).find? (fun u => u.id == uid && u.deleted_at.isNone)
      = (db.find? (fun u => u.id == uid && u.deleted_at.isNone)).map (applyIncrement uid d) := by
  unfold increment_user_quota
  have hp : ((fun u => u.id == uid && u.deleted_at.isNone) ∘ applyIncrement uid d)
      = (fun u : User => u.id == uid && u.deleted_at.isNone) := by
    funext u
    simp [Function.comp, applyIncrement_id, applyIncrement_deleted_at]
  rw [List.find?_map, hp]

theorem find?_user_props (db : UserDB) (uid : Int) (w : User)
    (hfind : db.find? (fun u => u.id == uid && u.deleted_at.isNone) = some w) :
    w.id = uid ∧ w.deleted_at = none := by
  have hp := List.find?_some hfind
  simpa [Bool.and_eq_true, beq_iff_eq, Option.isNone_iff_eq_none] using hp

/-- C4: on a user that `get_user_by_id` can see, `reset_user_quota(id, Q)`
followed by `get_user_by_id(id)` reports quota `Q` and `used_quota` 0 (the two
assignments are one table update in the model, as they are one SQL statement
in the source). -/
theorem reset_quota_then_get (db : UserDB) (uid Q : Int) (u : UserInfo)
    (hQ : 0 ≤ Q) (h : get_user_by_id db uid = .ok u) :
    get_user_by_id (reset_user_quota db uid Q) uid
      = .ok { u with quota := Q, used_quota := 0 } := by
  unfold get_user_by_id at h ⊢
  rcases hfind : db.find? (fun v => v.id == uid && v.deleted_at.isNone) with _ | w
  · rw [hfind] at h
    exact Except.noConfusion h
  · rw [hfind] at h
    simp only [Except.ok.injEq] at h
    subst h
    obtain ⟨hid, hdel⟩ := find?_user_props db uid w hfind
    rw [find?_map_applyReset, hfind, Option.map_some', applyReset_fires uid Q w hid hdel]
    rfl

/-- Witness for C4 with Q = 42 on user 2. -/
theorem reset_quota_then_get_witness :
    (0 : Int) ≤ 42 ∧
    get_user_by_id [⟨1, "a", "A", "vip", 5, 6, none⟩, ⟨2, "b", "B", "default", 7, 8, none⟩] 2
      = .ok ⟨2, "b", "B", "default", 7, 8⟩ ∧
    get_user_by_id
        (reset_user_quota [⟨1, "a", "A", "vip", 5, 6, none⟩,
          ⟨2, "b", "B", "default", 7, 8, none⟩] 2 42) 2
      = .ok ⟨2, "b", "B", "default", 42, 0⟩ :=
  ⟨by decide, by rfl,
    reset_quota_then_get _ 2 42 ⟨2, "b", "B", "default", 7, 8⟩ (by decide) (by rfl)⟩

/-- C5: two consecutive quota increments by `d1` and `d2` produce the same
table as one increment by `d1 + d2`, and a single increment adds exactly its
delta to the visible quota (plain integer addition: a negative delta may drive
the quota negative, nothing clamps it). -/
theorem increment_quota_additive (db : UserDB) (uid d1 d2 : Int) :
    increment_user_quota (increment_user_quota db uid d1) uid d2
      = increment_user_quota db uid (d1 + d2) ∧
    ∀ u : UserInfo, get_user_by_id db uid = .ok u →
      get_user_by_id (increment_user_quota db uid d1) uid
        = .ok { u with quota := u.quota + d1 } := by
  constructor
  · unfold increment_user_quota
    rw [List.map_map]
    apply List.map_congr_left
    intro u _
    by_cases hid : u.id = uid
    · by_cases hdel : u.deleted_at = none
      · simp [Function.comp, applyIncrement, hid, hdel, add_assoc]
      · simp [Function.comp, applyIncrement, hid, hdel, Option.isNone_iff_eq_none]
    · simp [Function.comp, applyIncrement, hid]
  · intro u h
    unfold get_user_by_id at h ⊢
    rcases hfind : db.find? (fun v => v.id == uid && v.deleted_at.isNone) with _ | w
    · rw [hfind] at h
      exact Except.noConfusion h
    · rw [hfind] at h
      simp only [Except.ok.injEq] at h
      subst h
      obtain ⟨hid, hdel⟩ := find?_user_props db uid w hfind
      rw [find?_map_applyIncrement, hfind, Option.map_some',
        applyIncrement_fires uid d1 w hid hdel]
      rfl

/-- Witness for C5: increments by -5 then 3 equal one increment by -2, and a
single increment by -5 drives user 1's quota to the negative value -2. -/
theorem increment_quota_additive_witness :
    increment_user_quota (increment_user_quota [⟨1, "a", "A", "vip", 3, 6, none⟩] 1 (-5)) 1 3
      = increment_user_quota [⟨1, "a", "A", "vip", 3, 6, none⟩] 1 (-5 + 3) ∧
    get_user_by_id [⟨1, "a", "A", "vip", 3, 6, none⟩] 1 = .ok ⟨1, "a", "A", "vip", 3, 6⟩ ∧
    get_user_by_id (increment_user_quota [⟨1, "a", "A", "vip", 3, 6, none⟩] 1 (-5)) 1
      = .ok ⟨1, "a", "A", "vip", -2, 6⟩ :=
  ⟨(increment_quota_additive [⟨1, "a", "A", "vip", 3, 6, none⟩] 1 (-5) 3).1, by rfl,
    (increment_quota_additive [⟨1, "a", "A", "vip", 3, 6, none⟩] 1 (-5) 3).2
      ⟨1, "a", "A", "vip", 3, 6⟩ (by rfl)⟩

theorem require_admin_auth_error (sessions : List String) (auth : String)
    (h : ¬ (auth.data.take 7 = "Bearer ".data ∧
            isValidToken sessions ⟨auth.data.drop 7⟩ = true)) :
    require_admin_auth sessions auth = .error ⟨403, "Admin access required"⟩ := by
  unfold require_admin_auth
  by_cases h1 : auth.data.take 7 = "Bearer ".data
  · rw [if_pos h1, if_neg (fun h2 => h ⟨h1, h2⟩)]
    rfl
  · rw [if_neg h1]
    rfl

/-- C2: a request whose `Authorization` header is missing (modelled as `""`),
does not start with `"Bearer "`, or carries a token with no session row, is
answered by every protected endpoint with the 403 "Admin access required"
error, and the server state is returned unchanged (no side effect happens). -/
theorem unauthorized_requests_rejected (st : ServerState) (auth : String)
    (uid vq dq d q : Int) (g : String)
    (h : ¬ (auth.data.take 7 = "Bearer ".data ∧
            isValidToken st.sessions ⟨auth.data.drop 7⟩ = true)) :
    require_admin_auth st.sessions auth = .error ⟨403, "Admin access required"⟩ ∧
    get_daily_reset_settings st auth = (st, .error ⟨403, "Admin access required"⟩) ∧
    set_daily_reset_settings st auth vq dq = (st, .error ⟨403, "Admin access required"⟩) ∧
    trigger_daily_reset_now st auth = (st, .error ⟨403, "Admin access required"⟩) ∧
    get_user_info st auth uid = (st, .error ⟨403, "Admin access required"⟩) ∧
    update_user_group_api st auth uid g = (st, .error ⟨403, "Admin access required"⟩) ∧
    increment_quota_api st auth uid d = (st, .error ⟨403, "Admin access required"⟩) ∧
    reset_quota_api st auth uid q = (st, .error ⟨403, "Admin access required"⟩) := by
  have hreq := require_admin_auth_error st.sessions auth h
  refine ⟨hreq, ?_, ?_, ?_, ?_, ?_, ?_, ?_⟩ <;>
    simp [get_daily_reset_settings, set_daily_reset_settings, trigger_daily_reset_now,
      get_user_info, update_user_group_api, increment_quota_api, reset_quota_api, hreq]

/-- Witness for C2: an absent header (the empty string) against a server that
has issued one token. -/
theorem unauthorized_requests_rejected_witness :
    (¬ (("" : String).data.take 7 = "Bearer ".data ∧
        isValidToken ["tok123"] ⟨("" : String).data.drop 7⟩ = true)) ∧
    (require_admin_auth ["tok123"] "" = .error ⟨403, "Admin access required"⟩ ∧
     get_daily_reset_settings ⟨["tok123"], [], []⟩ ""
       = (⟨["tok123"], [], []⟩, .error ⟨403, "Admin access required"⟩) ∧
     set_daily_reset_settings ⟨["tok123"], [], []⟩ "" 1 2
       = (⟨["tok123"], [], []⟩, .error ⟨403, "Admin access required"⟩) ∧
     trigger_daily_reset_now ⟨["tok123"], [], []⟩ ""
       = (⟨["tok123"], [], []⟩, .error ⟨403, "Admin access required"⟩) ∧
     get_user_info ⟨["tok123"], [], []⟩ "" 5
       = (⟨["tok123"], [], []⟩, .error ⟨403, "Admin access required"⟩) ∧
     update_user_group_api ⟨["tok123"], [], []⟩ "" 5 "g"
       = (⟨["tok123"], [], []⟩, .error ⟨403, "Admin access required"⟩) ∧
     increment_quota_api ⟨["tok123"], [], []⟩ "" 5 3
       = (⟨["tok123"], [], []⟩, .error ⟨403, "Admin access required"⟩) ∧
     reset_quota_api ⟨["tok123"], [], []⟩ "" 5 4
       = (⟨["tok123"], [], []⟩, .error ⟨403, "Admin access required"⟩)) :=
  ⟨by decide, unauthorized_requests_rejected ⟨["tok123"], [], []⟩ "" 5 1 2 3 4 "g" (by decide)⟩
theorem get_setting_set_same (s : Settings) (k v dflt : String) :
    get_setting (set_setting s k v) k dflt = v := by
  simp [get_setting, set_setting, List.find?_cons]

theorem find?_filter_of_ne (s : Settings) (k k' : String) (h : k ≠ k') :
    List.find? (fun kv => kv.1 == k) (List.filter (fun kv => kv.1 != k') s)
      = List.find? (fun kv => kv.1 == k) s := by
  induction s with
  | nil => rfl
  | cons a s ih =>
    rcases eq_or_ne a.1 k with ha | ha
    · have h1 : (a.1 != k') = true := by
        have hne : a.1 ≠ k' := by rw [ha]; exact h
        simpa [bne_iff_ne] using hne
      simp [List.filter_cons, h1, List.find?_cons, ha, h]
    · have h2 : (a.1 == k) = false := beq_eq_false_iff_ne.mpr ha
      by_cases ha' : a.1 = k'
      · have h1 : (a.1 != k') = false := by simp [bne, ha']
        simp [List.filter_cons, h1, List.find?_cons, h2, ih]
      · have h1 : (a.1 != k') = true := by simpa [bne_iff_ne] using ha'
        simp [List.filter_cons, h1, List.find?_cons, h2, ih]

theorem get_setting_set_other (s : Settings) (k k' v dflt : String) (h : k ≠ k') :
    get_setting (set_setting s k' v) k dflt = get_setting s k dflt := by
  have hb : (((k', v) : String × String).1 == k) = false :=
    beq_eq_false_iff_ne.mpr (fun he => h he.symm)
  unfold get_setting set_setting
  simp only [List.find?_cons, hb]
  rw [find?_filter_of_ne s k k' h]

/-- C6: on an authenticated settings write, a negative VIP or default quota is
rejected with the 400 error and the whole state — in particular both stored
settings — is unchanged; with both values non-negative, both settings are
upserted (each later read returns the written value, whatever the fallback)
and the `ok`/message body is returned. -/
theorem settings_write_validation (st : ServerState) (auth : String)
    (vq dq : Int) (d1 d2 : String)
    (hauth : require_admin_auth st.sessions auth = .ok ()) :
    ((vq < 0 ∨ dq < 0) →
      set_daily_reset_settings st auth vq dq
        = (st, .error ⟨400, "Quota cannot be negative"⟩)) ∧
    (0 ≤ vq → 0 ≤ dq →
      (set_daily_reset_settings st auth vq dq).2
          = .ok ⟨true, "Settings saved successfully."⟩ ∧
      get_setting (set_daily_reset_settings st auth vq dq).1.settings
          "daily_reset_quota_vip" d1 = toString vq ∧
      get_setting (set_daily_reset_settings st auth vq dq).1.settings
          "daily_reset_quota_default" d2 = toString dq ∧
      (set_daily_reset_settings st auth vq dq).1.sessions = st.sessions ∧
      (set_daily_reset_settings st auth vq dq).1.users = st.users) := by
  constructor
  · intro hneg
    have hb : (decide (vq < 0) || decide (dq < 0)) = true := by
      rcases hneg with h | h <;> simp [h]
    simp [set_daily_reset_settings, hauth, hb]
  · intro h1 h2
    have hb : (decide (vq < 0) || decide (dq < 0)) = false := by
      simp [not_lt.mpr h1, not_lt.mpr h2]
    have hred : set_daily_reset_settings st auth vq dq
        = (ServerState.mk st.sessions
            (set_setting (set_setting st.settings "daily_reset_quota_vip" (toString vq))
              "daily_reset_quota_default" (toString dq)) st.users,
           Except.ok ⟨true, "Settings saved successfully."⟩) := by
      simp [set_daily_reset_settings, hauth, hb]
    rw [hred]
    refine ⟨rfl, ?_, get_setting_set_same _ _ _ _, rfl, rfl⟩
    rw [get_setting_set_other _ _ _ _ _ (by decide)]
    exact get_setting_set_same _ _ _ _

/-- Witness for C6: a rejected write with a negative VIP quota (stored value
kept), and an accepted write of 3/4 readable back. -/
theorem settings_write_validation_witness :
    require_admin_auth ["t"] "Bearer t" = .ok () ∧
    set_daily_reset_settings ⟨["t"], [("daily_reset_quota_vip", "111")], []⟩ "Bearer t" (-1) 5
      = (⟨["t"], [("daily_reset_quota_vip", "111")], []⟩,
         .error ⟨400, "Quota cannot be negative"⟩) ∧
    get_setting (set_daily_reset_settings ⟨["t"], [("daily_reset_quota_vip", "111")], []⟩
        "Bearer t" 3 4).1.settings "daily_reset_quota_vip" "1000000" = toString (3 : Int) ∧
    get_setting (set_daily_reset_settings ⟨["t"], [("daily_reset_quota_vip", "111")], []⟩
        "Bearer t" 3 4).1.settings "daily_reset_quota_default" "50000" = toString (4 : Int) := by
  have hneg := settings_write_validation ⟨["t"], [("daily_reset_quota_vip", "111")], []⟩
    "Bearer t" (-1) 5 "1000000" "50000" (by rfl)
  have hpos := settings_write_validation ⟨["t"], [("daily_reset_quota_vip", "111")], []⟩
    "Bearer t" 3 4 "1000000" "50000" (by rfl)
  exact ⟨by rfl, hneg.1 (Or.inl (by decide)),
    (hpos.2 (by decide) (by decide)).2.1, (hpos.2 (by decide) (by decide)).2.2.1⟩

/-- C7: a login with the correct admin password returns its fresh token, that
token is persisted (the validity check accepts it, and a request presenting it
as `Bearer <token>` passes `require_admin_auth`), and in general the validity
check accepts a string exactly when a session row with that token exists. -/
theorem login_token_roundtrip (st : ServerState) (admin_password password token : String)
    (h : password = admin_password) :
    (admin_login st admin_password password token).2 = .ok token ∧
    isValidToken (admin_login st admin_password password token).1.sessions token = true ∧
    require_admin_auth (admin_login st admin_password password token).1.sessions
      ("Bearer " ++ token) = .ok () ∧
    (∀ (sessions : List String) (t : String), isValidToken sessions t = true ↔ t ∈ sessions) := by
  subst h
  have hlogin : admin_login st password password token
      = ({ st with sessions := st.sessions ++ [token] }, .ok token) := by
    simp [admin_login]
  rw [hlogin]
  have hval : isValidToken (st.sessions ++ [token]) token = true := by
    simp [isValidToken, List.contains, List.elem_eq_mem]
  refine ⟨rfl, hval, ?_, ?_⟩
  · unfold require_admin_auth
    have htake : ("Bearer " ++ token).data.take 7 = "Bearer ".data := by
      rw [String.data_append]
      exact List.take_left' (by decide)
    have hdropdata : ("Bearer " ++ token).data.drop 7 = token.data := by
      rw [String.data_append]
      exact List.drop_left' (by decide)
    have hdrop : (⟨("Bearer " ++ token).data.drop 7⟩ : String) = token := by
      rw [hdropdata]
    rw [if_pos htake, hdrop, if_pos hval]
  · intro sessions t
    simp [isValidToken, List.contains, List.elem_eq_mem]

/-- Witness for C7 with password "admin123" and token "cafe01". -/
theorem login_token_roundtrip_witness :
    ("admin123" : String) = "admin123" ∧
    (admin_login ⟨[], [], []⟩ "admin123" "admin123" "cafe01").2 = .ok "cafe01" ∧
    isValidToken (admin_login ⟨[], [], []⟩ "admin123" "admin123" "cafe01").1.sessions
      "cafe01" = true ∧
    require_admin_auth (admin_login ⟨[], [], []⟩ "admin123" "admin123" "cafe01").1.sessions
      ("Bearer " ++ "cafe01") = .ok () ∧
    (∀ (sessions : List String) (t : String), isValidToken sessions t = true ↔ t ∈ sessions) := by
  have h := login_token_roundtrip ⟨[], [], []⟩ "admin123" "admin123" "cafe01" (by rfl)
  exact ⟨rfl, h.1, h.2.1, h.2.2.1, h.2.2.2⟩

/-- C8: an authenticated call of the manual-trigger endpoint runs the reset
job to completion on the stored state before the response is produced, and the
response is always the ok/message body — `daily_reset` is total, in particular
it absorbs its only internal failure (an unparseable stored setting) via its
top-level exception handler. -/
theorem manual_trigger_runs_job (st : ServerState) (auth : String)
    (hauth : require_admin_auth st.sessions auth = .ok ()) :
    trigger_daily_reset_now st auth
      = ({ st with users := daily_reset st.settings st.users },
         .ok ⟨true, "Immediate reset task has been triggered successfully."⟩) := by
  simp [trigger_daily_reset_now, hauth]

/-- Witness for C8: the stored VIP quota "oops" is unparseable, the job's
exception handler eats the failure, and the endpoint still answers ok with the
users table unchanged. -/
theorem manual_trigger_runs_job_witness :
    require_admin_auth ["t"] "Bearer t" = .ok () ∧
    trigger_daily_reset_now
        ⟨["t"], [("daily_reset_quota_vip", "oops")], [⟨1, "a", "A", "vip", 3, 6, none⟩]⟩
        "Bearer t"
      = (⟨["t"], [("daily_reset_quota_vip", "oops")], [⟨1, "a", "A", "vip", 3, 6, none⟩]⟩,
         .ok ⟨true, "Immediate reset task has been triggered successfully."⟩) := by
  have h := manual_trigger_runs_job
    ⟨["t"], [("daily_reset_quota_vip", "oops")], [⟨1, "a", "A", "vip", 3, 6, none⟩]⟩
    "Bearer t" (by rfl)
  exact ⟨by rfl, h.trans (by rfl)⟩

/-- C10: for a user id with no matching non-deleted row, the three mutation
endpoints answer `{"ok": True}` with the whole server state unchanged; only
the read endpoint reports the 404. -/
theorem missing_user_mutations_silent (st : ServerState) (auth : String)
    (uid : Int) (g : String) (d q : Int)
    (hauth : require_admin_auth st.sessions auth = .ok ())
    (hmiss : ∀ u ∈ st.users, u.id = uid → u.deleted_at ≠ none) :
    update_user_group_api st auth uid g = (st, .ok true) ∧
    increment_quota_api st auth uid d = (st, .ok true) ∧
    reset_quota_api st auth uid q = (st, .ok true) ∧
    get_user_info st auth uid
      = (st, .error ⟨404, "User not found or has been deleted"⟩) := by
  refine ⟨?_, ?_, ?_, ?_⟩
  · simp [update_user_group_api, hauth, update_user_group_untouched st.users uid g hmiss]
  · simp [increment_quota_api, hauth, increment_user_quota_untouched st.users uid d hmiss]
  · simp [reset_quota_api, hauth, reset_user_quota_untouched st.users uid q hmiss]
  · have h404 : get_user_by_id st.users uid
        = .error ⟨404, "User not found or has been deleted"⟩ := by
      unfold get_user_by_id
      rw [find?_user_eq_none st.users uid hmiss]
    simp [get_user_info, hauth, h404]

/-- Witness for C10: id 9 has no row at all; the mutations answer ok and
change nothing, the read answers 404. -/
theorem missing_user_mutations_silent_witness :
    require_admin_auth ["s"] "Bearer s" = .ok () ∧
    (∀ u ∈ ([⟨1, "a", "A", "vip", 3, 6, none⟩] : UserDB), u.id = 9 → u.deleted_at ≠ none) ∧
    (update_user_group_api ⟨["s"], [], [⟨1, "a", "A", "vip", 3, 6, none⟩]⟩ "Bearer s" 9 "g"
        = (⟨["s"], [], [⟨1, "a", "A", "vip", 3, 6, none⟩]⟩, .ok true) ∧
     increment_quota_api ⟨["s"], [], [⟨1, "a", "A", "vip", 3, 6, none⟩]⟩ "Bearer s" 9 2
        = (⟨["s"], [], [⟨1, "a", "A", "vip", 3, 6, none⟩]⟩, .ok true) ∧
     reset_quota_api ⟨["s"], [], [⟨1, "a", "A", "vip", 3, 6, none⟩]⟩ "Bearer s" 9 5
        = (⟨["s"], [], [⟨1, "a", "A", "vip", 3, 6, none⟩]⟩, .ok true) ∧
     get_user_info ⟨["s"], [], [⟨1, "a", "A", "vip", 3, 6, none⟩]⟩ "Bearer s" 9
        = (⟨["s"], [], [⟨1, "a", "A", "vip", 3, 6, none⟩]⟩,
           .error ⟨404, "User not found or has been deleted"⟩)) :=
  ⟨by rfl, by decide,
    missing_user_mutations_silent ⟨["s"], [], [⟨1, "a", "A", "vip", 3, 6, none⟩]⟩
      "Bearer s" 9 "g" 2 5 (by rfl) (by decide)⟩
